import Mathlib

/-!
Verification of the KAMAYAN POS print server (`src/server/index.js`).

The file shallowly embeds the `/api/print` handler: the validation pipeline
(lines 61-114 of `index.js`), the socket state machine inside the promise
executor (lines 118-196), and the outcome-to-HTTP mapping (lines 197-210).
JavaScript numbers that the handler treats as ports and payload bytes are
modelled as `Int`; `Buffer.from` byte coercion uses JS `ToUint8` on integers,
i.e. euclidean remainder modulo 256.
-/

namespace PrintServer

/-- One HTTP response produced by the handler: status code plus the body
fields that actually occur (`success`, optional `error`, optional `message`). -/
structure ApiResponse where
  status : Nat
  success : Bool
  error : Option String
  message : Option String
deriving Repr, DecidableEq

/-- The value the promise executor resolves with: `{success, message}` on
success, `{success, error}` on failure (`index.js` lines 137-182). `text` is
whichever of the two strings the object carries. -/
structure RelayOutcome where
  success : Bool
  text : String
deriving Repr, DecidableEq

/-- The `ip` field of the request body: absent, or a string.  `!ip` in JS is
true for an absent field and for the empty string. -/
inductive JsIp
  | absent
  | str (s : String)
deriving Repr, DecidableEq

/-- The `data` field of the request body: absent (or otherwise falsy),
present but not an array, or an array of integers. -/
inductive JsData
  | absent
  | notArray
  | arr (xs : List Int)
deriving Repr, DecidableEq

/-- The check `!ip || !data || !Array.isArray(data)` (line 70): the request lacks a
usable ip or data array. -/
def missingIpOrData : JsIp → JsData → Bool
  | JsIp.absent, _ => true
  | JsIp.str s, d =>
    if s = "" then true
    else match d with
      | JsData.arr _ => false
      | _ => true

/-- Split a character list at every `'.'`, keeping empty groups, exactly as
a `.`-separated decomposition of the string: `"1.2"` becomes
`[['1'], ['2']]`, `""` becomes `[[]]`, `"1..2"` becomes
`[['1'], [], ['2']]`. -/
def splitDots : List Char → List (List Char)
  | [] => [[]]
  | c :: cs =>
    if c = '.' then [] :: splitDots cs
    else
      match splitDots cs with
      | [] => [[c]]
      | g :: gs => (c :: g) :: gs

/-- One dot-separated group of `ipRegex` (line 80): `\d{1,3}` — one to three
characters, all decimal digits. -/
def validGroup (g : List Char) : Bool :=
  decide (1 ≤ g.length) && decide (g.length ≤ 3) && g.all Char.isDigit

/-- The test `ipRegex.test(ip)` for `/^(\d{1,3}\.){3}\d{1,3}$/` (lines 80-81): exactly
four dot-separated groups of one to three digits, no numeric range check. -/
def ipMatch (s : String) : Bool :=
  match splitDots s.data with
  | [a, b, c, d] => validGroup a && validGroup b && validGroup c && validGroup d
  | _ => false

/-- Line 88, `const printerPort = port || 9100`: JS `||` falls through to
9100 when `port` is absent or the falsy number 0. -/
def printerPort : Option Int → Int
  | none => 9100
  | some p => if p = 0 then 9100 else p

/-- JS `ToUint8`, the per-element coercion `Buffer.from` applies to integer
array entries: reduce modulo 256 into 0..255. -/
def toUint8 (i : Int) : Nat :=
  (i.emod 256).toNat

/-- The call `Buffer.from(data)` on an array of integers (line 101): each entry is
coerced with `ToUint8`; for an array argument the call never throws, so the
result is always `Except.ok`. The `Except` codomain records that the
surrounding `try` is prepared for a thrown conversion error. -/
def bufferFrom (xs : List Int) : Except String (List Nat) :=
  Except.ok (xs.map toUint8)

/-- Lines 98-114: the `try { buffer = Buffer.from(data); ... } catch` block,
as a function of the conversion result. A thrown conversion error becomes
400 `Invalid data format: <msg>`; an empty buffer becomes 400
`Print data is empty`; otherwise the buffer is kept. -/
def convertData (r : Except String (List Nat)) : Except ApiResponse (List Nat) :=
  match r with
  | Except.error msg =>
    Except.error ⟨400, false, some ("Invalid data format: " ++ msg), none⟩
  | Except.ok buf =>
    if buf.length = 0 then
      Except.error ⟨400, false, some "Print data is empty", none⟩
    else
      Except.ok buf

/-- The validation pipeline of `app.post('/api/print')` (lines 61-114), run
before any socket exists: missing-field check, ip format check, port range
check, buffer conversion. On success it yields the validated
`(address, resolvedPort, byteBuffer)` triple. -/
def validate (ip : JsIp) (port : Option Int) (data : JsData) :
    Except ApiResponse (String × Int × List Nat) :=
  if missingIpOrData ip data then
    Except.error ⟨400, false, some "Invalid request",
      some "IP address and data array are required"⟩
  else
    match ip, data with
    | JsIp.str s, JsData.arr xs =>
      if ¬ ipMatch s then
        Except.error ⟨400, false, some "Invalid IP address format", none⟩
      else
        let p := printerPort port
        if p < 1 ∨ p > 65535 then
          Except.error ⟨400, false, some "Invalid port number (must be 1-65535)", none⟩
        else
          match convertData (bufferFrom xs) with
          | Except.error r => Except.error r
          | Except.ok buf => Except.ok (s, p, buf)
    | _, _ =>
      -- unreachable: `missingIpOrData` is false only in the string/array case
      Except.error ⟨400, false, some "Invalid request",
        some "IP address and data array are required"⟩

/-- A socket event that can fire inside the promise executor.
`connect writeErr` carries the result of the `try { write; end }` block run
by the connect handler: `none` when write and end succeed, `some e` when
`socket.write` throws with message `e`. `socketError msg` carries
`error.message`, with `none` modelling a falsy message. -/
inductive Event
  | timeout
  | socketError (msg : Option String)
  | connect (writeErr : Option String)
  | close
deriving Repr, DecidableEq

/-- The mutable state of one relay attempt: the executor's local variables
`connected`, `printSuccess`, `resolved` (lines 120-122), together with the
observable effects — the resolved outcome, the number of times `resolve` has
actually been invoked, whether `socket.destroy()` was called, and the bytes
passed to `socket.write`. -/
structure RelayState where
  connected : Bool
  printSuccess : Bool
  resolved : Bool
  outcome : Option RelayOutcome
  resolveCalls : Nat
  destroyed : Bool
  written : Option (List Nat)
deriving Repr, DecidableEq

/-- The state before any event fires (lines 119-122). -/
def initState : RelayState :=
  ⟨false, false, false, none, 0, false, none⟩

/-- The latch `resolveOnce` (lines 127-132): invoke `resolve(result)` only if the
attempt is not yet resolved. -/
def resolveOnce (s : RelayState) (r : RelayOutcome) : RelayState :=
  if s.resolved then s
  else { s with resolved := true, outcome := some r,
                resolveCalls := s.resolveCalls + 1 }

/-- One socket event handler firing, exactly as registered on lines 134-184:
`timeout` destroys the socket then resolves the timeout failure; `error`
resolves with the error message or the `Connection failed` fallback;
`connect` sets `connected`, writes the buffer and sets `printSuccess` (or, if
the write throws, destroys the socket and resolves the send failure);
`close` resolves success after a successful write, or the premature-close
failure when never connected and not yet resolved. -/
def step (buf : List Nat) (s : RelayState) : Event → RelayState
  | Event.timeout =>
    resolveOnce { s with destroyed := true }
      ⟨false, "Connection timeout - printer may be offline or unreachable"⟩
  | Event.socketError msg =>
    resolveOnce s ⟨false, msg.getD "Connection failed"⟩
  | Event.connect writeErr =>
    let s1 := { s with connected := true }
    match writeErr with
    | none => { s1 with written := some buf, printSuccess := true }
    | some e =>
      resolveOnce { s1 with destroyed := true }
        ⟨false, "Failed to send data: " ++ e⟩
  | Event.close =>
    if s.connected && s.printSuccess then
      resolveOnce s ⟨true, "Print job sent successfully"⟩
    else if !s.connected && !s.resolved then
      resolveOnce s ⟨false, "Connection closed unexpectedly"⟩
    else s

/-- Run one relay attempt against a sequence of socket events. -/
def runEvents (buf : List Nat) (evs : List Event) : RelayState :=
  evs.foldl (step buf) initState

/-- Events whose handler resolves the attempt when it is still pending:
`timeout`, `error`, `close`, and `connect` with a failing write. A `connect`
whose write succeeds leaves resolution to a later event. -/
def isSettling : Event → Bool
  | Event.timeout => true
  | Event.socketError _ => true
  | Event.close => true
  | Event.connect writeErr => writeErr.isSome

/-- Lines 197-203: map a resolved outcome to the HTTP response —
`res.json(result)` (status 200) on success, `res.status(500).json(result)`
on failure. -/
def mapOutcome (o : RelayOutcome) : ApiResponse :=
  if o.success then ⟨200, true, none, some o.text⟩
  else ⟨500, false, some o.text, none⟩

/-- The observable result of one `/api/print` request: the HTTP response
(`none` while the promise is still pending), how many sockets were created,
and the relay state reached (absent when validation rejected the request
before the promise executor ran). -/
structure HandlerResult where
  response : Option ApiResponse
  socketsOpened : Nat
  finalState : Option RelayState
deriving Repr, DecidableEq

/-- The whole `/api/print` handler (lines 61-210) as a function of the
request body and the socket events that fire: validation first; only on
success is a socket created (`new net.Socket()`, line 119) and the event
machine run, its outcome mapped to the HTTP response. -/
def handlePrint (ip : JsIp) (port : Option Int) (data : JsData)
    (evs : List Event) : HandlerResult :=
  match validate ip port data with
  | Except.error r => ⟨some r, 0, none⟩
  | Except.ok (_, _, buf) =>
    let s := runEvents buf evs
    ⟨s.outcome.map mapOutcome, 1, some s⟩

/-- The executor's state invariant: `resolve` has been invoked exactly once
iff the latch `resolved` is set, and a connected socket has either completed
its write (`printSuccess`) or the attempt is already resolved (a failing
write resolves immediately). -/
def Inv (s : RelayState) : Prop :=
  s.resolveCalls = (if s.resolved then 1 else 0) ∧
  (s.connected = true → s.printSuccess = true ∨ s.resolved = true)

theorem inv_init : Inv initState := by
  constructor <;> simp [initState]

theorem inv_step (buf : List Nat) (s : RelayState) (e : Event) (h : Inv s) :
    Inv (step buf s e) := by
  obtain ⟨h1, h2⟩ := h
  cases e with
  | timeout =>
    by_cases hr : s.resolved = true <;>
      simp_all [step, resolveOnce, Inv]
  | socketError msg =>
    by_cases hr : s.resolved = true <;>
      simp_all [step, resolveOnce, Inv]
  | connect writeErr =>
    cases writeErr with
    | none => simp_all [step, resolveOnce, Inv]
    | some e =>
      by_cases hr : s.resolved = true <;>
        simp_all [step, resolveOnce, Inv]
  | close =>
    by_cases hr : s.resolved = true <;>
      by_cases hc : s.connected = true <;>
        by_cases hp : s.printSuccess = true <;>
          simp_all [step, resolveOnce, Inv]

theorem inv_foldl (buf : List Nat) (evs : List Event) (s : RelayState)
    (h : Inv s) : Inv (evs.foldl (step buf) s) := by
  induction evs generalizing s with
  | nil => exact h
  | cons e evs ih => exact ih _ (inv_step buf s e h)

theorem inv_runEvents (buf : List Nat) (evs : List Event) :
    Inv (runEvents buf evs) :=
  inv_foldl buf evs initState inv_init

theorem resolved_step_mono (buf : List Nat) (s : RelayState) (e : Event)
    (h : s.resolved = true) : (step buf s e).resolved = true := by
  cases e with
  | timeout => simp_all [step, resolveOnce]
  | socketError msg => simp_all [step, resolveOnce]
  | connect writeErr =>
    cases writeErr <;> simp_all [step, resolveOnce]
  | close =>
    by_cases hc : s.connected = true <;>
      by_cases hp : s.printSuccess = true <;>
        simp_all [step, resolveOnce]

theorem step_frozen (buf : List Nat) (s : RelayState) (e : Event)
    (h : s.resolved = true) :
    (step buf s e).outcome = s.outcome ∧
    (step buf s e).resolveCalls = s.resolveCalls := by
  cases e with
  | timeout => simp_all [step, resolveOnce]
  | socketError msg => simp_all [step, resolveOnce]
  | connect writeErr =>
    cases writeErr <;> simp_all [step, resolveOnce]
  | close =>
    by_cases hc : s.connected = true <;>
      by_cases hp : s.printSuccess = true <;>
        simp_all [step, resolveOnce]

theorem settling_resolves (buf : List Nat) (s : RelayState) (e : Event)
    (hinv : Inv s) (h : isSettling e = true) :
    (step buf s e).resolved = true := by
  obtain ⟨_, h2⟩ := hinv
  cases e with
  | timeout =>
    by_cases hr : s.resolved = true <;> simp_all [step, resolveOnce]
  | socketError msg =>
    by_cases hr : s.resolved = true <;> simp_all [step, resolveOnce]
  | connect writeErr =>
    cases writeErr with
    | none => simp_all [isSettling]
    | some e =>
      by_cases hr : s.resolved = true <;> simp_all [step, resolveOnce]
  | close =>
    by_cases hr : s.resolved = true <;>
      by_cases hc : s.connected = true <;>
        by_cases hp : s.printSuccess = true <;>
          simp_all [step, resolveOnce]

theorem settling_foldl (buf : List Nat) (evs : List Event) (s : RelayState)
    (hinv : Inv s)
    (hor : (∃ e ∈ evs, isSettling e = true) ∨ s.resolved = true) :
    (evs.foldl (step buf) s).resolved = true := by
  induction evs generalizing s with
  | nil =>
    rcases hor with ⟨e, he, _⟩ | hr
    · exact absurd he (List.not_mem_nil e)
    · exact hr
  | cons e evs ih =>
    refine ih (step buf s e) (inv_step buf s e hinv) ?_
    rcases hor with ⟨f, hf, hfs⟩ | hr
    · rcases List.mem_cons.mp hf with rfl | hf2
      · exact Or.inr (settling_resolves buf s f hinv hfs)
      · exact Or.inl ⟨f, hf2, hfs⟩
    · exact Or.inr (resolved_step_mono buf s e hr)

theorem settling_mem_resolves (buf : List Nat) (evs : List Event)
    (h : ∃ e ∈ evs, isSettling e = true) :
    (runEvents buf evs).resolved = true :=
  settling_foldl buf evs initState inv_init (Or.inl h)

/-- Line 125, `socket.setTimeout(10000)`: the connection timeout in
milliseconds. -/
def timeoutMs : Nat := 10000

/-- C1: for every relay attempt, regardless of the order in which socket
events fire, `resolve` is invoked at most once; if any settling event (error,
close, timeout, or a failing write) fires, it is invoked exactly once — never
zero, never more than one; and once the attempt is resolved, every further
event leaves the outcome and the resolve count unchanged. -/
theorem relay_resolves_exactly_once (buf : List Nat) (evs : List Event) :
    (runEvents buf evs).resolveCalls ≤ 1 ∧
    ((∃ e ∈ evs, isSettling e = true) → (runEvents buf evs).resolveCalls = 1) ∧
    (∀ s : RelayState, ∀ e : Event, s.resolved = true →
      (step buf s e).outcome = s.outcome ∧
      (step buf s e).resolveCalls = s.resolveCalls) := by
  obtain ⟨h1, _⟩ := inv_runEvents buf evs
  refine ⟨?_, ?_, fun s e h => step_frozen buf s e h⟩
  · rw [h1]; split <;> omega
  · intro h
    have hres := settling_mem_resolves buf evs h
    rw [h1, hres]
    rfl

/-- Witness for C1: the error-then-close ordering on a one-byte buffer
resolves exactly once. -/
theorem relay_resolves_exactly_once_witness :
    (runEvents [1] [Event.socketError none, Event.close]).resolveCalls = 1 :=
  (relay_resolves_exactly_once [1] [Event.socketError none, Event.close]).2.1
    ⟨Event.socketError none, by decide, by decide⟩

/-- C4: whenever the socket closes in a reachable state that is not yet
resolved and has not reached the connected-and-written state, the close
handler resolves the attempt with the failure
`Connection closed unexpectedly`. -/
theorem close_unresolved_gives_premature_failure (buf : List Nat)
    (evs : List Event)
    (h1 : (runEvents buf evs).resolved = false)
    (h2 : ¬((runEvents buf evs).connected = true ∧
            (runEvents buf evs).printSuccess = true)) :
    (step buf (runEvents buf evs) Event.close).outcome =
      some ⟨false, "Connection closed unexpectedly"⟩ := by
  obtain ⟨_, hconn⟩ := inv_runEvents buf evs
  have hc : (runEvents buf evs).connected = false := by
    cases hcc : (runEvents buf evs).connected
    · rfl
    · rcases hconn hcc with hp | hr
      · exact absurd ⟨hcc, hp⟩ h2
      · rw [hr] at h1; exact absurd h1 (by simp)
  simp [step, resolveOnce, hc, h1]

/-- Witness for C4: a close firing first, before any other event, resolves
the premature-close failure. -/
theorem close_unresolved_gives_premature_failure_witness :
    (runEvents [] []).resolved = false ∧
    ¬((runEvents [] []).connected = true ∧
      (runEvents [] []).printSuccess = true) ∧
    (step [] (runEvents [] []) Event.close).outcome =
      some ⟨false, "Connection closed unexpectedly"⟩ :=
  ⟨by decide, by decide,
   close_unresolved_gives_premature_failure [] [] (by decide) (by decide)⟩

/-- C5: the timeout constant is 10,000 ms, and when the timeout fires before
the attempt has resolved, the socket is destroyed and the attempt resolves
with exactly the failure message
`Connection timeout - printer may be offline or unreachable`. -/
theorem timeout_destroys_and_resolves (buf : List Nat) (s : RelayState)
    (h : s.resolved = false) :
    timeoutMs = 10000 ∧
    (step buf s Event.timeout).destroyed = true ∧
    (step buf s Event.timeout).outcome =
      some ⟨false, "Connection timeout - printer may be offline or unreachable"⟩ := by
  refine ⟨rfl, ?_, ?_⟩ <;> simp [step, resolveOnce, h]

/-- Witness for C5: the timeout firing as the very first event destroys the
socket and resolves the timeout failure. -/
theorem timeout_destroys_and_resolves_witness :
    initState.resolved = false ∧
    (step [] initState Event.timeout).destroyed = true ∧
    (step [] initState Event.timeout).outcome =
      some ⟨false, "Connection timeout - printer may be offline or unreachable"⟩ :=
  ⟨by decide, (timeout_destroys_and_resolves [] initState (by decide)).2⟩

theorem validate_ok (s : String) (port : Option Int) (xs : List Int)
    (hs : s ≠ "") (hip : ipMatch s = true)
    (hp : ¬(printerPort port < 1 ∨ printerPort port > 65535))
    (hxs : xs ≠ []) :
    validate (JsIp.str s) port (JsData.arr xs) =
      Except.ok (s, printerPort port, xs.map toUint8) := by
  have hlen : ¬((xs.map toUint8).length = 0) := by
    simp only [List.length_map]
    exact fun h => hxs (List.length_eq_zero.mp h)
  unfold validate
  simp [missingIpOrData, hs, hip, hp, convertData, bufferFrom, hlen, hxs]

/-- C6: a valid request (non-empty address matching the ip pattern, resolved
port in range, non-empty payload) whose connection succeeds, whose write
succeeds, and whose socket then closes, resolves `Success` and the HTTP
response is 200 with `success:true` and message
`Print job sent successfully`, over exactly one socket. -/
theorem happy_path_success (s : String) (port : Option Int) (xs : List Int)
    (hs : s ≠ "") (hip : ipMatch s = true)
    (hp : ¬(printerPort port < 1 ∨ printerPort port > 65535))
    (hxs : xs ≠ []) :
    (handlePrint (JsIp.str s) port (JsData.arr xs)
        [Event.connect none, Event.close]).response =
      some ⟨200, true, none, some "Print job sent successfully"⟩ ∧
    (handlePrint (JsIp.str s) port (JsData.arr xs)
        [Event.connect none, Event.close]).socketsOpened = 1 := by
  unfold handlePrint
  rw [validate_ok s port xs hs hip hp hxs]
  constructor <;>
    simp [runEvents, initState, step, resolveOnce, mapOutcome]

/-- Witness for C6: the spec's concrete scenario — address `192.168.1.100`,
port 9100, payload `[27,64,72,101,108,108,111,10]`, connect, write, close. -/
theorem happy_path_success_witness :
    (handlePrint (JsIp.str "192.168.1.100") (some 9100)
        (JsData.arr [27, 64, 72, 101, 108, 108, 111, 10])
        [Event.connect none, Event.close]).response =
      some ⟨200, true, none, some "Print job sent successfully"⟩ :=
  (happy_path_success "192.168.1.100" (some 9100)
    [27, 64, 72, 101, 108, 108, 111, 10]
    (by decide) (by decide) (by decide) (by decide)).1

/-- C8: every request that fails validation is answered immediately with the
validation response and zero sockets are created; conversely, a request that
opens no socket is exactly one that failed validation. -/
theorem validation_before_socket (ip : JsIp) (port : Option Int)
    (data : JsData) (evs : List Event) :
    (∀ r : ApiResponse, validate ip port data = Except.error r →
      handlePrint ip port data evs = ⟨some r, 0, none⟩) ∧
    ((handlePrint ip port data evs).socketsOpened = 0 ↔
      ∃ r : ApiResponse, validate ip port data = Except.error r) := by
  constructor
  · intro r h
    unfold handlePrint
    rw [h]
  · unfold handlePrint
    cases h : validate ip port data with
    | error r => simp [h]
    | ok v =>
      obtain ⟨a, b, c⟩ := v
      simp [h]

/-- Witness for C8: the empty payload `[]` is rejected with
`Print data is empty` and no socket is opened. -/
theorem validation_before_socket_witness :
    handlePrint (JsIp.str "192.168.1.1") none (JsData.arr []) [] =
      ⟨some ⟨400, false, some "Print data is empty", none⟩, 0, none⟩ :=
  (validation_before_socket (JsIp.str "192.168.1.1") none (JsData.arr []) []).1
    ⟨400, false, some "Print data is empty", none⟩ rfl

/-- C9: a request that explicitly supplies port 0 is not rejected — the
falsiness default `port || 9100` replaces 0 by 9100, validation succeeds
with resolved port 9100, and a socket is opened. -/
theorem port_zero_treated_as_default (s : String) (xs : List Int)
    (evs : List Event)
    (hs : s ≠ "") (hip : ipMatch s = true) (hxs : xs ≠ []) :
    validate (JsIp.str s) (some 0) (JsData.arr xs) =
      Except.ok (s, 9100, xs.map toUint8) ∧
    (handlePrint (JsIp.str s) (some 0) (JsData.arr xs) evs).socketsOpened
      = 1 := by
  have hpp : printerPort (some 0) = 9100 := rfl
  have h := validate_ok s (some 0) xs hs hip (by rw [hpp]; omega) hxs
  rw [hpp] at h
  refine ⟨h, ?_⟩
  unfold handlePrint
  rw [h]

/-- Witness for C9: port 0 with a well-formed address and a one-byte payload
resolves to port 9100 and opens a socket. -/
theorem port_zero_treated_as_default_witness :
    validate (JsIp.str "10.0.0.5") (some 0) (JsData.arr [7]) =
      Except.ok ("10.0.0.5", 9100, [7]) ∧
    (handlePrint (JsIp.str "10.0.0.5") (some 0) (JsData.arr [7])
        []).socketsOpened = 1 :=
  port_zero_treated_as_default "10.0.0.5" [7] []
    (by decide) (by decide) (by decide)

/-- Rejoin dot-separated groups with `'.'`: the left inverse of
`splitDots`. -/
def joinDots : List (List Char) → List Char
  | [] => []
  | [g] => g
  | g :: gs => g ++ '.' :: joinDots gs

theorem splitDots_ne_nil (l : List Char) : splitDots l ≠ [] := by
  induction l with
  | nil => simp [splitDots]
  | cons c cs ih =>
    unfold splitDots
    by_cases hc : c = '.'
    · simp [hc]
    · simp only [hc, if_false]
      cases h : splitDots cs with
      | nil => simp
      | cons g gs => simp

theorem join_splitDots (l : List Char) : joinDots (splitDots l) = l := by
  induction l with
  | nil => rfl
  | cons c cs ih =>
    unfold splitDots
    by_cases hc : c = '.'
    · subst hc
      simp only [if_pos rfl]
      cases h : splitDots cs with
      | nil => exact absurd h (splitDots_ne_nil cs)
      | cons g gs =>
        rw [h] at ih
        cases gs <;> simp_all [joinDots]
    · simp only [if_neg hc]
      cases h : splitDots cs with
      | nil => exact absurd h (splitDots_ne_nil cs)
      | cons g gs =>
        rw [h] at ih
        cases gs <;> simp_all [joinDots]

theorem splitDots_append (g rest : List Char) (h : '.' ∉ g) :
    splitDots (g ++ '.' :: rest) = g :: splitDots rest := by
  induction g with
  | nil => simp [splitDots]
  | cons c g ih =>
    have hc : c ≠ '.' := fun e => h (e ▸ List.mem_cons_self c g)
    have h2 : '.' ∉ g := fun hm => h (List.mem_cons_of_mem c hm)
    rw [List.cons_append, splitDots, if_neg hc, ih h2]

theorem splitDots_no_dot (g : List Char) (h : '.' ∉ g) :
    splitDots g = [g] := by
  induction g with
  | nil => rfl
  | cons c g ih =>
    have hc : c ≠ '.' := fun e => h (e ▸ List.mem_cons_self c g)
    have h2 : '.' ∉ g := fun hm => h (List.mem_cons_of_mem c hm)
    rw [splitDots, if_neg hc, ih h2]

theorem validGroup_no_dot (g : List Char) (h : validGroup g = true) :
    '.' ∉ g := by
  intro hm
  unfold validGroup at h
  simp only [Bool.and_eq_true, List.all_eq_true, decide_eq_true_eq] at h
  exact absurd (h.2 '.' hm) (by decide)

/-- C7: the address validator accepts exactly the strings that decompose
into four dot-separated groups of one to three digits, with no numeric
range check; `999.999.999.999` is accepted and proceeds to a connection
attempt, while any non-matching non-empty address is rejected with a 400
response whose error is `Invalid IP address format` and no socket. -/
theorem ip_validator_permissive :
    (∀ s : String, ipMatch s = true ↔
      ∃ a b c d : List Char,
        s.data = a ++ '.' :: (b ++ '.' :: (c ++ '.' :: d)) ∧
        validGroup a = true ∧ validGroup b = true ∧
        validGroup c = true ∧ validGroup d = true) ∧
    ipMatch "999.999.999.999" = true ∧
    (handlePrint (JsIp.str "999.999.999.999") (some 9100) (JsData.arr [1])
        []).socketsOpened = 1 ∧
    (∀ (s : String) (port : Option Int) (xs : List Int) (evs : List Event),
      s ≠ "" → ipMatch s = false →
      handlePrint (JsIp.str s) port (JsData.arr xs) evs =
        ⟨some ⟨400, false, some "Invalid IP address format", none⟩, 0,
          none⟩) := by
  refine ⟨?_, by decide, rfl, ?_⟩
  · intro s
    constructor
    · intro hm
      unfold ipMatch at hm
      split at hm
      next a b c d heq =>
        simp only [Bool.and_eq_true] at hm
        obtain ⟨⟨⟨ha, hb⟩, hc⟩, hd⟩ := hm
        refine ⟨a, b, c, d, ?_, ha, hb, hc, hd⟩
        have hj := join_splitDots s.data
        rw [heq] at hj
        simpa [joinDots] using hj.symm
      next => simp at hm
    · rintro ⟨a, b, c, d, hdecomp, ha, hb, hc, hd⟩
      unfold ipMatch
      rw [hdecomp, splitDots_append a _ (validGroup_no_dot a ha),
          splitDots_append b _ (validGroup_no_dot b hb),
          splitDots_append c _ (validGroup_no_dot c hc),
          splitDots_no_dot d (validGroup_no_dot d hd)]
      simp [ha, hb, hc, hd]
  · intro s port xs evs hs hip
    unfold handlePrint validate
    simp [missingIpOrData, hs, hip]

/-- Witness for C7: `10.0.0` has only three groups, so it is rejected with
the ip-format error and no socket is opened. -/
theorem ip_validator_permissive_witness :
    handlePrint (JsIp.str "10.0.0") none (JsData.arr [1]) [] =
      ⟨some ⟨400, false, some "Invalid IP address format", none⟩, 0, none⟩ :=
  ip_validator_permissive.2.2.2 "10.0.0" none [1] [] (by decide) (by decide)

/-- Counterexample for C2: a request explicitly supplying port 0 has a
resolved port (in the claim's sense of "the explicitly supplied port")
below 1, yet it is not rejected — validation succeeds with port 9100 and a
socket is opened. -/
theorem port_zero_not_rejected_counterexample :
    (0 : Int) < 1 ∧
    validate (JsIp.str "192.168.1.100") (some 0) (JsData.arr [1]) =
      Except.ok ("192.168.1.100", 9100, [1]) ∧
    (handlePrint (JsIp.str "192.168.1.100") (some 0) (JsData.arr [1])
        []).socketsOpened = 1 :=
  ⟨by decide, rfl, rfl⟩

/-- C2 (amended): for every request whose code-resolved port
`port || 9100` — the explicit port when nonzero, else 9100 — lies outside
[1, 65535], and whose address passes the earlier checks, the request is
rejected at validation with 400 `Invalid port number (must be 1-65535)` and
no socket is created. -/
theorem out_of_range_resolved_port_rejected (s : String) (port : Option Int)
    (xs : List Int) (evs : List Event)
    (hs : s ≠ "") (hip : ipMatch s = true)
    (hp : printerPort port < 1 ∨ printerPort port > 65535) :
    handlePrint (JsIp.str s) port (JsData.arr xs) evs =
      ⟨some ⟨400, false, some "Invalid port number (must be 1-65535)", none⟩,
        0, none⟩ := by
  unfold handlePrint validate
  simp [missingIpOrData, hs, hip, hp]

/-- Witness for C2 (amended): port 70000 is rejected with the port-range
error before any socket is created. -/
theorem out_of_range_resolved_port_rejected_witness :
    handlePrint (JsIp.str "192.168.1.100") (some 70000) (JsData.arr [1]) [] =
      ⟨some ⟨400, false, some "Invalid port number (must be 1-65535)", none⟩,
        0, none⟩ :=
  out_of_range_resolved_port_rejected "192.168.1.100" (some 70000) [1] []
    (by decide) (by decide) (by decide)

/-- Counterexample for C3: the payload `[300]` has an element outside
0-255, yet conversion does not raise — the request passes validation with
the truncated byte 44 and completes successfully, instead of being rejected
with 400 `Invalid data format`. -/
theorem payload_out_of_range_accepted_counterexample :
    ¬((300 : Int) ≤ 255) ∧
    bufferFrom [300] = Except.ok [44] ∧
    validate (JsIp.str "1.2.3.4") none (JsData.arr [300]) =
      Except.ok ("1.2.3.4", 9100, [44]) ∧
    (handlePrint (JsIp.str "1.2.3.4") none (JsData.arr [300])
        [Event.connect none, Event.close]).response =
      some ⟨200, true, none, some "Print job sent successfully"⟩ :=
  ⟨by decide, rfl, rfl, rfl⟩

/-- C3 (amended): a conversion error, if one were raised, would be mapped
to a 400 response with error `Invalid data format: <msg>` carrying the
conversion error's message; but for arrays of numeric elements the
conversion never raises — it always yields the mod-256 truncated bytes. -/
theorem conversion_error_maps_to_invalid_data_format :
    (∀ msg : String, convertData (Except.error msg) =
      Except.error ⟨400, false, some ("Invalid data format: " ++ msg),
        none⟩) ∧
    (∀ xs : List Int, bufferFrom xs = Except.ok (xs.map toUint8)) :=
  ⟨fun _ => rfl, fun _ => rfl⟩

/-- C10: converting the payload never raises for numeric elements — each
element is reduced modulo 256 (300 becomes 44, -1 becomes 255, every result
is below 256), and the truncated bytes are exactly what the connect handler
writes to the socket. -/
theorem buffer_truncates_mod_256 (s : String) (xs : List Int)
    (hs : s ≠ "") (hip : ipMatch s = true) (hxs : xs ≠ []) :
    bufferFrom xs = Except.ok (xs.map toUint8) ∧
    toUint8 300 = 44 ∧ toUint8 (-1) = 255 ∧
    (∀ i : Int, toUint8 i < 256) ∧
    ∃ st : RelayState,
      (handlePrint (JsIp.str s) none (JsData.arr xs)
          [Event.connect none]).finalState = some st ∧
      st.written = some (xs.map toUint8) := by
  have hp : ¬(printerPort none < 1 ∨ printerPort none > 65535) := by decide
  refine ⟨rfl, by decide, by decide, ?_, ?_⟩
  · intro i
    have h1 : 0 ≤ i.emod 256 := Int.emod_nonneg i (by decide)
    have h2 : i.emod 256 < 256 := Int.emod_lt_of_pos i (by decide)
    unfold toUint8
    omega
  · unfold handlePrint
    rw [validate_ok s none xs hs hip hp hxs]
    refine ⟨runEvents (xs.map toUint8) [Event.connect none], rfl, ?_⟩
    simp [runEvents, initState, step]

/-- Witness for C10: the payload `[300, -1]` is written to the socket as
the truncated bytes `[44, 255]`. -/
theorem buffer_truncates_mod_256_witness :
    ∃ st : RelayState,
      (handlePrint (JsIp.str "1.2.3.4") none (JsData.arr [300, -1])
          [Event.connect none]).finalState = some st ∧
      st.written = some [44, 255] :=
  (buffer_truncates_mod_256 "1.2.3.4" [300, -1] (by decide) (by decide)
    (by decide)).2.2.2.2

end PrintServer
